import Mathlib

/-!
# gocdn: origin ("root") server and caching edge ("cdn") server

A shallow embedding of the two HTTP handlers of the repository,
`root_server/main.go` and `cdn_server/main.go`.

* Go strings are modelled by `String`. Every string operation the handlers use
  (concatenation, `strings.HasSuffix`, `path.Join`) only inspects the ASCII
  characters `/` and `.` or compares whole strings.
* The filesystem is an explicit state `FileSystem`; the operating-system calls the
  handlers make (`os.Stat`, `os.OpenFile`, writing to a file) are functions on it.
* The calls into `net/http` that produce the response (`http.ServeFile`,
  `http.Redirect`, `w.WriteHeader` + `fmt.Fprintln`) are recorded as a `Response`.
* A Go runtime panic is an explicit outcome, `Exec.panic`.
* Everything the environment decides (the pseudo-random draw, the result of the
  HTTP round trip to the origin, I/O failures) is an explicit argument.
-/

/-! ## Filesystem -/

/-- What a filesystem holds under one name. -/
inductive Node where
  /-- No such file: `os.Stat` fails with an error satisfying `os.IsNotExist`. -/
  | absent
  /-- Lookup failure: `os.Stat` fails with another error (`EACCES`, `ENOTDIR`, `ENAMETOOLONG`, `EINVAL`, ...). -/
  | inaccessible
  /-- A directory. -/
  | dir
  /-- A regular file and its bytes. -/
  | file (content : String)
  deriving DecidableEq, Repr

/-- A filesystem state: the node under every path name. -/
abbrev FileSystem := String → Node

/-- The filesystem `fs` with the node under `name` replaced by `n`. -/
def FileSystem.update (fs : FileSystem) (name : String) (n : Node) : FileSystem :=
  fun p => if p = name then n else fs p

/-- The pair `(FileInfo, error)` returned by `os.Stat`. -/
inductive StatResult where
  /-- The result `(nil, err)` with `os.IsNotExist(err)`. -/
  | notExist
  /-- The result `(nil, err)` with an error for which `os.IsNotExist(err)` is false. -/
  | failed
  /-- The result `(info, nil)`; `isDir` is `info.IsDir()`. -/
  | info (isDir : Bool)
  deriving DecidableEq, Repr

/-- The call `os.Stat(name)`. -/
def osStat (fs : FileSystem) (name : String) : StatResult :=
  match fs name with
  | .absent => .notExist
  | .inaccessible => .failed
  | .dir => .info true
  | .file _ => .info false

/-- Result of running Go code that may end in a runtime panic. -/
inductive Exec (α : Type) where
  | ok (a : α)
  | panic
  deriving DecidableEq, Repr

/-! ## Go standard library: `strings`, `path`, `math/rand` -/

/-- The function `strings.HasSuffix`:
`len(s) >= len(suffix) && s[len(s)-len(suffix):] == suffix`. -/
def strings.HasSuffix (s suffix : String) : Bool :=
  decide (s.data.length ≥ suffix.data.length) &&
    decide (s.data.drop (s.data.length - suffix.data.length) = suffix.data)

/-- Backward scan of `path.Clean` at a `..` element: from write index `w`, step back
while `w > dotdot` and `buf[w] != '/'`. -/
def path.backtrack (buf : List Char) (dotdot : Nat) : Nat → Nat
  | 0 => 0
  | w + 1 =>
    if w + 1 > dotdot ∧ buf.getD (w + 1) '/' ≠ '/' then path.backtrack buf dotdot w else w + 1

/-- Main loop of `path.Clean`: `rest` is the unread input `path[r:]`, `out` the output
buffer and `dotdot` the index where `..` must stop. Every iteration reads at least one
character, so `fuel = len(path)` iterations always reach the end of the input. -/
def path.cleanLoop (rooted : Bool) : Nat → List Char → List Char → Nat → List Char
  | 0, _, out, _ => out
  | fuel + 1, rest, out, dotdot =>
    match rest with
    | [] => out
    | c :: t =>
      if c = '/' then
        -- empty path element
        path.cleanLoop rooted fuel t out dotdot
      else if c = '.' ∧ (t = [] ∨ t.head? = some '/') then
        -- . element
        path.cleanLoop rooted fuel t out dotdot
      else if c = '.' ∧ t.head? = some '.' ∧ (t.tail = [] ∨ t.tail.head? = some '/') then
        -- .. element: remove to last /
        if out.length > dotdot then
          path.cleanLoop rooted fuel t.tail
            (out.take (path.backtrack out dotdot (out.length - 1))) dotdot
        else if !rooted then
          -- cannot backtrack, but not rooted, so append .. element
          let out1 := if out.length > 0 then out ++ ['/'] else out
          let out2 := out1 ++ ['.', '.']
          path.cleanLoop rooted fuel t.tail out2 out2.length
        else
          path.cleanLoop rooted fuel t.tail out dotdot
      else
        -- real path element: add slash if needed, then copy the element
        let out1 :=
          if (rooted ∧ out.length ≠ 1) ∨ (!rooted ∧ out.length ≠ 0) then out ++ ['/'] else out
        path.cleanLoop rooted fuel (rest.dropWhile (fun x => x != '/'))
          (out1 ++ rest.takeWhile (fun x => x != '/')) dotdot

/-- The function `path.Clean`. -/
def path.Clean (p : String) : String :=
  if p = "" then "."
  else
    let rooted : Bool := p.data.head? = some '/'
    let out :=
      if rooted then path.cleanLoop rooted p.data.length p.data.tail ['/'] 1
      else path.cleanLoop rooted p.data.length p.data [] 0
    if out.length = 0 then "." else String.mk out

/-- The call `path.Join(a, b)`: empty elements are ignored, the others are joined by
a slash and the result is cleaned; if all elements are empty the result is empty. -/
def path.Join (a b : String) : String :=
  if a ≠ "" then path.Clean (a ++ "/" ++ b)
  else if b ≠ "" then path.Clean b
  else ""

/-- The call `rand.Intn(n)`: a number in `[0, n)`, a panic when `n <= 0`. The state of
the pseudo-random generator is the raw value `draw`. -/
def rand.Intn (draw : Nat) (n : Nat) : Exec Nat :=
  if n = 0 then .panic else .ok (draw % n)

/-! ## HTTP requests and responses -/

/-- The fields of an incoming `*http.Request` that the handlers read. -/
structure Request where
  /-- The field `r.Method`. -/
  Method : String
  /-- The field `r.URL.Path`. -/
  Path : String
  /-- The map `r.Header`: the values stored under a key, `[]` when the key is missing. -/
  Header : String → List String
  /-- The bytes read from `r.Body`. -/
  Body : String

/-- What a handler does with its `http.ResponseWriter`. -/
inductive Response where
  /-- The call `http.ServeFile(w, r, name)`. -/
  | serveFile (name : String)
  /-- The call `http.Redirect(w, r, url, code)`. -/
  | redirect (url : String) (code : Nat)
  /-- The call `w.WriteHeader(code)` followed by `fmt.Fprintln(w, ...)` printing `body`. -/
  | status (code : Nat) (body : String)
  /-- The handler returned without touching `w`: an empty `200 OK`. -/
  | empty
  deriving DecidableEq, Repr

/-- The constant `http.MethodGet`. -/
def http.MethodGet : String := "GET"
/-- The constant `http.MethodPost`. -/
def http.MethodPost : String := "POST"
/-- The constant `http.StatusTemporaryRedirect`. -/
def http.StatusTemporaryRedirect : Nat := 307
/-- The constant `http.StatusNotFound`. -/
def http.StatusNotFound : Nat := 404
/-- The constant `http.StatusInternalServerError`. -/
def http.StatusInternalServerError : Nat := 500

/-! ## `root_server/main.go` -/

/-- The struct `RootServer`. -/
structure RootServer where
  /-- The directory that is served. -/
  ServeDir : String
  /-- All registered cdn servers. -/
  cdnServers : List String
  /-- File extensions always served by the root server itself. -/
  SelfServedFileTypes : List String
  deriving DecidableEq, Repr

/-- The method `handleCdnConnect`: the whole request body is appended to `cdnServers`. -/
def RootServer.handleCdnConnect (s : RootServer) (r : Request) : RootServer :=
  let newCdnServer := r.Body
  { s with cdnServers := s.cdnServers ++ [newCdnServer] }

/-- The function `fileIsDir`: `false` if `os.Stat` reports not-exist, otherwise `stat.IsDir()`,
which dereferences a nil `FileInfo` when `os.Stat` failed with another error. -/
def fileIsDir (fs : FileSystem) (dir : String) : Exec Bool :=
  match osStat fs dir with
  | .notExist => .ok false
  | .failed => .panic
  | .info isDir => .ok isDir

/-- The method `serveFileMyself`: directories and the configured file types. -/
def RootServer.serveFileMyself (s : RootServer) (fs : FileSystem) (file : String) : Exec Bool :=
  match fileIsDir fs file with
  | .panic => .panic
  | .ok true => .ok true
  | .ok false => .ok (s.SelfServedFileTypes.any (fun filetype => strings.HasSuffix file filetype))

/-- The method `randomCdnServer`: `s.cdnServers[rand.Intn(len(s.cdnServers))]`. -/
def RootServer.randomCdnServer (s : RootServer) (draw : Nat) : Exec String :=
  match rand.Intn draw s.cdnServers.length with
  | .panic => .panic
  | .ok randomIndex =>
    match s.cdnServers[randomIndex]? with
    | none => .panic
    | some cdnServer => .ok cdnServer

/-- The method `absolutePath`: `path.Join(s.ServeDir, requestPath)`. -/
def RootServer.absolutePath (s : RootServer) (requestPath : String) : String :=
  path.Join s.ServeDir requestPath

/-- The method `RootServer.ServeHTTP`: the server state after the request and the response. -/
def RootServer.ServeHTTP (s : RootServer) (fs : FileSystem) (draw : Nat) (r : Request) :
    Exec (RootServer × Response) :=
  if r.Path = "/cdn_register" ∧ r.Method = http.MethodPost then
    .ok (s.handleCdnConnect r, .empty)
  else
    let cdnRequest : Bool := (r.Header "X-Cdn-Request").length > 0
    let cdnServersAvailable : Bool := s.cdnServers.length > 0
    match s.serveFileMyself fs r.Path with
    | .panic => .panic
    | .ok serveFiletypeMyself =>
      if cdnRequest || !cdnServersAvailable || serveFiletypeMyself then
        .ok (s, .serveFile (s.absolutePath r.Path))
      else
        match s.randomCdnServer draw with
        | .panic => .panic
        | .ok cdnServer => .ok (s, .redirect (cdnServer ++ r.Path) http.StatusTemporaryRedirect)

/-! ## `cdn_server/main.go` -/

/-- The function `fileExists`: `false` exactly when `os.Stat` reports not-exist. -/
def fileExists (fs : FileSystem) (filename : String) : Bool :=
  match osStat fs filename with
  | .notExist => false
  | _ => true

/-- The struct `CdnServer`. -/
structure CdnServer where
  /-- The directory holding the cached files. -/
  CachePath : String
  /-- The URL of the root server. -/
  RootServer : String
  deriving DecidableEq, Repr

/-- The method `pathToCache`: `path.Join(c.CachePath, requestPath)`. -/
def CdnServer.pathToCache (c : CdnServer) (requestPath : String) : String :=
  path.Join c.CachePath requestPath

/-- An outgoing request built with `http.NewRequest` and `request.Header.Set`. -/
structure ClientRequest where
  Method : String
  URL : String
  Header : List (String × String)
  deriving DecidableEq, Repr

/-- The pair `(response, err)` returned by `httpClient.Do`: an error when no HTTP
response was obtained, otherwise the response with its status code and body, whatever
the status code is. -/
inductive FetchResult where
  | error (err : String)
  | response (StatusCode : Nat) (Body : String)
  deriving DecidableEq, Repr

/-- What the environment decides during one cache fill. -/
structure Env where
  /-- The error of `http.NewRequest` for a URL, if it rejects the URL. -/
  newRequestErr : String → Option String
  /-- The round trip `httpClient.Do(request)`. -/
  Do : ClientRequest → FetchResult
  /-- An error of `os.OpenFile` caused from outside the modelled state (missing parent
  directory, permissions, no space left), if any. -/
  openErr : String → Option String
  /-- An error while copying the response body into the file, if any: the number of
  bytes that reached the file before it, and the error. -/
  copyErr : String → Option (Nat × String)

/-- The call `os.OpenFile(name, os.O_CREATE|os.O_WRONLY, 0755)`: the filesystem with the
file opened for writing (created empty if absent, left as it is if present: there is no
`O_TRUNC`), or the error. -/
def osOpenFile (env : Env) (fs : FileSystem) (name : String) : Except String FileSystem :=
  match env.openErr name with
  | some err => .error err
  | none =>
    match fs name with
    | .absent => .ok (fs.update name (.file ""))
    | .file _ => .ok fs
    | .dir => .error "is a directory"
    | .inaccessible => .error "cannot open"

/-- Writing `bytes` at offset 0 of a file holding `old`. -/
def writeAtStart (old bytes : String) : String :=
  String.mk (bytes.data ++ old.data.drop bytes.data.length)

/-- The bytes of the open file `name`. -/
def fileContent (fs : FileSystem) (name : String) : String :=
  match fs name with
  | .file content => content
  | _ => ""

/-- The call `bufio.NewReader(response.Body).WriteTo(file)` on the freshly opened file
`name`: the filesystem afterwards and the error, if the copy stopped early. -/
def copyBodyToFile (env : Env) (fs : FileSystem) (name : String) (body : String) :
    FileSystem × Option String :=
  match env.copyErr name with
  | none => (fs.update name (.file (writeAtStart (fileContent fs name) body)), none)
  | some (n, err) =>
    (fs.update name (.file (writeAtStart (fileContent fs name) (String.mk (body.data.take n)))),
      some err)

/-- Result of `loadFromRootServer`. -/
structure LoadResult where
  /-- The filesystem afterwards. -/
  fs : FileSystem
  /-- The requests sent to the root server, in order. -/
  fetches : List ClientRequest
  /-- The returned error: `none` for `nil`; otherwise the response that was written to `w`
  before returning the error. -/
  err : Option Response

/-- The method `loadFromRootServer`: fetch `requestPath` from the root server into the cache. -/
def CdnServer.loadFromRootServer (c : CdnServer) (env : Env) (fs : FileSystem)
    (requestPath : String) : LoadResult :=
  -- Build a get request to the root server
  match env.newRequestErr (c.RootServer ++ requestPath) with
  | some _ =>
    ⟨fs, [], some (.status http.StatusInternalServerError
      "Could not create http request to root server\n")⟩
  | none =>
    -- Set the X-Cdn-Request header
    let request : ClientRequest :=
      ⟨http.MethodGet, c.RootServer ++ requestPath, [("X-Cdn-Request", "true")]⟩
    -- Make the request
    match env.Do request with
    | .error err =>
      ⟨fs, [request], some (.status http.StatusNotFound
        ("Could not find " ++ requestPath ++ " on root server: " ++ err ++ "\n"))⟩
    | .response _ body =>
      -- Open file in local cache to write the response from the root server to
      match osOpenFile env fs (c.pathToCache requestPath) with
      | .error err =>
        ⟨fs, [request], some (.status http.StatusInternalServerError
          ("Could not create cache file for " ++ requestPath ++ " : " ++ err ++ "\n"))⟩
      | .ok fs1 =>
        -- Write response from root server to cache file
        match copyBodyToFile env fs1 (c.pathToCache requestPath) body with
        | (fs2, some err) =>
          ⟨fs2, [request], some (.status http.StatusInternalServerError
            ("Could not write cache file " ++ requestPath ++ " : " ++ err ++ "\n"))⟩
        | (fs2, none) => ⟨fs2, [request], none⟩

/-- Outcome of one request to the cdn server. -/
structure Outcome where
  /-- The filesystem afterwards. -/
  fs : FileSystem
  /-- The response to the client. -/
  response : Response
  /-- The requests sent to the root server, in order. -/
  fetches : List ClientRequest

/-- The method `CdnServer.ServeHTTP`: serve from the cache, filling it on a miss. -/
def CdnServer.ServeHTTP (c : CdnServer) (env : Env) (fs : FileSystem) (r : Request) : Outcome :=
  if fileExists fs (c.pathToCache r.Path) then
    -- File exists in local cache, so serve that file
    ⟨fs, .serveFile (c.pathToCache r.Path), []⟩
  else
    -- File not in local cache. Request that file from the root server
    let loaded := c.loadFromRootServer env fs r.Path
    match loaded.err with
    | some written => ⟨loaded.fs, written, loaded.fetches⟩
    | none =>
      -- File now in local cache. Now serve that file from cache
      ⟨loaded.fs, .serveFile (c.pathToCache r.Path), loaded.fetches⟩

/-! ## Concrete scenarios -/

/-- A plain `GET` request from a client. -/
def clientGet (requestPath : String) : Request :=
  ⟨http.MethodGet, requestPath, fun _ => [], ""⟩

/-- A `GET` request carrying `X-Cdn-Request: true`, as sent by `loadFromRootServer`. -/
def cdnGet (requestPath : String) : Request :=
  ⟨http.MethodGet, requestPath, fun key => if key = "X-Cdn-Request" then ["true"] else [], ""⟩

/-- A registration request `POST /cdn_register` with the given body. -/
def registerPost (addr : String) : Request :=
  ⟨http.MethodPost, "/cdn_register", fun _ => [], addr⟩

/-- A filesystem of an origin host: the served tree `/srv/www` with a directory `images`
and a file `index.html`, and the regular file `/etc/passwd`, below which every lookup
fails with `ENOTDIR`. -/
def originFs : FileSystem := fun p =>
  if p = "/" ∨ p = "/etc" ∨ p = "/srv" ∨ p = "/srv/www" ∨ p = "/srv/www/images" then .dir
  else if p = "/srv/www/index.html" then .file "<html></html>\n"
  else if p = "/etc/passwd" then .file "root:x:0:0:root:/root:/bin/sh\n"
  else if p = "/etc/passwd/x" ∨ p = "/etc/passwd/index.html" then .inaccessible
  else .absent

/-- An origin serving `/srv/www` with one registered edge and no self-served suffix. -/
def originOneEdge : RootServer := ⟨"/srv/www", ["http://localhost:8193"], []⟩

/-- An origin serving `/srv/www` with two registered edges and no self-served suffix. -/
def originTwoEdges : RootServer :=
  ⟨"/srv/www", ["http://localhost:8193", "http://localhost:8194"], []⟩

/-- An origin serving `/srv/www` with one registered edge, self-serving `.html`. -/
def originHtml : RootServer := ⟨"/srv/www", ["http://localhost:8193"], [".html"]⟩

/-- An origin serving `/srv/www` with no registered edge. -/
def originNoEdge : RootServer := ⟨"/srv/www", [], []⟩

/-- An edge with an empty cache directory. -/
def edge : CdnServer := ⟨"/tmp/distrihttp_data1", "http://localhost:8192"⟩

/-- The filesystem of the edge host: only the cache directory exists. -/
def edgeFs : FileSystem := fun p =>
  if p = "/" ∨ p = "/tmp" ∨ p = "/tmp/distrihttp_data1" then .dir else .absent

/-- An environment without I/O failures in which the origin answers every fetch with
the given status and body. -/
def originAnswers (status : Nat) (body : String) : Env :=
  ⟨fun _ => none, fun _ => .response status body, fun _ => none, fun _ => none⟩

/-- An environment in which the origin answers `200` with `body`, and the copy into the
cache file fails after `n` bytes. -/
def copyFailsAfter (n : Nat) (body : String) : Env :=
  ⟨fun _ => none, fun _ => .response 200 body, fun _ => none,
    fun _ => some (n, "no space left on device")⟩

/-- An environment in which no connection to the origin can be made. -/
def originUnreachable : Env :=
  ⟨fun _ => none, fun _ => .error "connection refused", fun _ => none, fun _ => none⟩

/-! ## Lemmas on `path.Clean` -/

/-- One more unit of fuel than the length of the unread input changes nothing. -/
theorem path.cleanLoop_fuel (rooted : Bool) (fuel : Nat) :
    ∀ (rest out : List Char) (dotdot : Nat), rest.length ≤ fuel →
      path.cleanLoop rooted (fuel + 1) rest out dotdot =
        path.cleanLoop rooted fuel rest out dotdot := by
  induction fuel with
  | zero =>
    intro rest out dotdot h
    have hnil : rest = [] := List.length_eq_zero.mp (Nat.le_zero.mp h)
    subst hnil
    unfold path.cleanLoop
    rfl
  | succ n ih =>
    intro rest out dotdot h
    cases rest with
    | nil =>
      unfold path.cleanLoop
      rfl
    | cons c t =>
      have ht : t.length ≤ n := by simpa using h
      have htt : t.tail.length ≤ n := by
        rw [List.length_tail]
        omega
      unfold path.cleanLoop
      by_cases hc : c = '/'
      · simp only [hc, if_true, ih _ _ _ ht]
      · have hd : ((c :: t).dropWhile (fun x => x != '/')).length ≤ n := by
          have hne : (c != '/') = true := by simpa using hc
          rw [List.dropWhile_cons, if_pos hne]
          exact le_trans (List.dropWhile_sublist _).length_le ht
        simp only [hc, if_false, ih _ _ _ ht, ih _ _ _ htt, ih _ _ _ hd]

/-- The loop of `path.Clean` ends within as many iterations as there are unread
characters: fuel beyond that number is never used. -/
theorem path.cleanLoop_enough_fuel (rooted : Bool) (extra : Nat) (rest out : List Char)
    (dotdot : Nat) :
    path.cleanLoop rooted (rest.length + extra) rest out dotdot =
      path.cleanLoop rooted rest.length rest out dotdot := by
  induction extra with
  | zero => rfl
  | succ k ih =>
    rw [← Nat.add_assoc, path.cleanLoop_fuel rooted (rest.length + k) rest out dotdot (by omega), ih]

/-! ## Lemmas on the origin -/

theorem fileIsDir_eq_panic_iff (fs : FileSystem) (dir : String) :
    fileIsDir fs dir = .panic ↔ osStat fs dir = .failed := by
  unfold fileIsDir
  cases h : osStat fs dir <;> simp

theorem RootServer.serveFileMyself_eq_panic_iff (s : RootServer) (fs : FileSystem)
    (file : String) : s.serveFileMyself fs file = .panic ↔ osStat fs file = .failed := by
  rw [← fileIsDir_eq_panic_iff]
  unfold RootServer.serveFileMyself
  cases h : fileIsDir fs file with
  | panic => simp
  | ok b => cases b <;> simp

theorem RootServer.randomCdnServer_eq (s : RootServer) (draw : Nat)
    (h : 0 < s.cdnServers.length) :
    s.randomCdnServer draw =
      .ok (s.cdnServers.get ⟨draw % s.cdnServers.length, Nat.mod_lt _ h⟩) := by
  have hlt : draw % s.cdnServers.length < s.cdnServers.length := Nat.mod_lt _ h
  simp [RootServer.randomCdnServer, rand.Intn, Nat.pos_iff_ne_zero.mp h,
    List.getElem?_eq_getElem hlt]

/-- Outside registration, whenever `serveFileMyself` returns, a request with the marker,
or with an empty roster, or for which `serveFileMyself` is true, is served by the origin. -/
theorem RootServer.ServeHTTP_selfServe (s : RootServer) (fs : FileSystem) (draw : Nat)
    (r : Request) (b : Bool)
    (hreg : ¬(r.Path = "/cdn_register" ∧ r.Method = http.MethodPost))
    (hself : s.serveFileMyself fs r.Path = .ok b)
    (hcond : r.Header "X-Cdn-Request" ≠ [] ∨ s.cdnServers = [] ∨ b = true) :
    s.ServeHTTP fs draw r = .ok (s, .serveFile (s.absolutePath r.Path)) := by
  unfold RootServer.ServeHTTP
  rw [if_neg hreg]
  simp only [hself]
  have : (decide ((r.Header "X-Cdn-Request").length > 0) ||
      !decide (s.cdnServers.length > 0) || b) = true := by
    rcases hcond with h | h | h
    · have : 0 < (r.Header "X-Cdn-Request").length := List.length_pos.mpr h
      simp [this]
    · simp [h]
    · simp [h]
  rw [if_pos this]

/-- Whenever `os.Stat` fails on the request path with an error other than not-exist,
every non-registration request makes the handler panic. -/
theorem RootServer.ServeHTTP_panic (s : RootServer) (fs : FileSystem) (draw : Nat)
    (r : Request) (hreg : ¬(r.Path = "/cdn_register" ∧ r.Method = http.MethodPost))
    (hstat : osStat fs r.Path = .failed) :
    s.ServeHTTP fs draw r = .panic := by
  unfold RootServer.ServeHTTP
  rw [if_neg hreg]
  simp only [(s.serveFileMyself_eq_panic_iff fs r.Path).mpr hstat]

theorem RootServer.serveFileMyself_returns (s : RootServer) (fs : FileSystem) (file : String)
    (hstat : osStat fs file ≠ .failed) : ∃ b, s.serveFileMyself fs file = .ok b := by
  cases h : s.serveFileMyself fs file with
  | ok b => exact ⟨b, rfl⟩
  | panic => exact absurd ((s.serveFileMyself_eq_panic_iff fs file).mp h) hstat

/-- Where `os.Stat` on the request path succeeds or reports not-exist, a non-registration
request carrying `X-Cdn-Request` is served by the origin itself. -/
theorem RootServer.ServeHTTP_marker (s : RootServer) (fs : FileSystem) (draw : Nat)
    (r : Request) (hreg : ¬(r.Path = "/cdn_register" ∧ r.Method = http.MethodPost))
    (hstat : osStat fs r.Path ≠ .failed) (hmark : r.Header "X-Cdn-Request" ≠ []) :
    s.ServeHTTP fs draw r = .ok (s, .serveFile (s.absolutePath r.Path)) := by
  obtain ⟨b, hb⟩ := s.serveFileMyself_returns fs r.Path hstat
  exact s.ServeHTTP_selfServe fs draw r b hreg hb (Or.inl hmark)

/-- Where `os.Stat` on the request path succeeds or reports not-exist, a non-registration
request is served by the origin itself when the roster is empty. -/
theorem RootServer.ServeHTTP_emptyRoster (s : RootServer) (fs : FileSystem) (draw : Nat)
    (r : Request) (hreg : ¬(r.Path = "/cdn_register" ∧ r.Method = http.MethodPost))
    (hstat : osStat fs r.Path ≠ .failed) (hempty : s.cdnServers = []) :
    s.ServeHTTP fs draw r = .ok (s, .serveFile (s.absolutePath r.Path)) := by
  obtain ⟨b, hb⟩ := s.serveFileMyself_returns fs r.Path hstat
  exact s.ServeHTTP_selfServe fs draw r b hreg hb (Or.inr (Or.inl hempty))

/-- Where `os.Stat` on the request path succeeds or reports not-exist, a non-registration
request whose path ends with a configured suffix is served by the origin itself. -/
theorem RootServer.ServeHTTP_suffix (s : RootServer) (fs : FileSystem) (draw : Nat)
    (r : Request) (hreg : ¬(r.Path = "/cdn_register" ∧ r.Method = http.MethodPost))
    (hstat : osStat fs r.Path ≠ .failed)
    (hsuf : ∃ filetype ∈ s.SelfServedFileTypes, strings.HasSuffix r.Path filetype = true) :
    s.ServeHTTP fs draw r = .ok (s, .serveFile (s.absolutePath r.Path)) := by
  have hself : s.serveFileMyself fs r.Path = .ok true := by
    unfold RootServer.serveFileMyself
    cases h : fileIsDir fs r.Path with
    | panic => exact absurd ((fileIsDir_eq_panic_iff fs r.Path).mp h) hstat
    | ok b =>
      cases b with
      | true => rfl
      | false =>
        obtain ⟨t, ht, hts⟩ := hsuf
        have : s.SelfServedFileTypes.any (fun filetype => strings.HasSuffix r.Path filetype)
            = true := List.any_eq_true.mpr ⟨t, ht, hts⟩
        simp only [this]
  exact s.ServeHTTP_selfServe fs draw r true hreg hself (Or.inr (Or.inr rfl))

/-- A non-registration request whose request path itself, taken as a filesystem name,
is a directory is served by the origin itself. -/
theorem RootServer.ServeHTTP_requestPathDir (s : RootServer) (fs : FileSystem) (draw : Nat)
    (r : Request) (hreg : ¬(r.Path = "/cdn_register" ∧ r.Method = http.MethodPost))
    (hdir : fs r.Path = .dir) :
    s.ServeHTTP fs draw r = .ok (s, .serveFile (s.absolutePath r.Path)) := by
  have hself : s.serveFileMyself fs r.Path = .ok true := by
    simp [RootServer.serveFileMyself, fileIsDir, osStat, hdir]
  exact s.ServeHTTP_selfServe fs draw r true hreg hself (Or.inr (Or.inr rfl))

/-! ## Claims on the origin -/

/-- C1, evaluated where the code departs from it: the origin serves `/srv/www` and an edge
relays a fetch for `/etc/passwd/x`, a name on which `os.Stat` fails with `ENOTDIR`. The
request carries `X-Cdn-Request` and is no registration, yet `fileIsDir` dereferences the
nil `FileInfo` and the handler panics: no file is served. -/
theorem C1_marker_request_panics_when_stat_fails :
    (cdnGet "/etc/passwd/x").Header "X-Cdn-Request" = ["true"] ∧
    osStat originFs (cdnGet "/etc/passwd/x").Path = .failed ∧
    originOneEdge.ServeHTTP originFs 0 (cdnGet "/etc/passwd/x") = .panic ∧
    originOneEdge.ServeHTTP originFs 0 (cdnGet "/etc/passwd/x") ≠
      .ok (originOneEdge, .serveFile (originOneEdge.absolutePath "/etc/passwd/x")) := by
  decide

/-- C3, evaluated where the code departs from it: the origin serves `/srv/www`, one edge is
registered, and the request is `GET /images`. The resolved target
`absolutePath("/images") = /srv/www/images` is an existing directory, but `serveFileMyself`
is handed the request path `/images`, which does not exist, so the request is redirected
to the edge with status 307. -/
theorem C3_directory_under_ServeDir_is_redirected :
    originOneEdge.absolutePath "/images" = "/srv/www/images" ∧
    originFs (originOneEdge.absolutePath "/images") = .dir ∧
    fileIsDir originFs (originOneEdge.absolutePath "/images") = .ok true ∧
    originOneEdge.serveFileMyself originFs (clientGet "/images").Path = .ok false ∧
    originOneEdge.ServeHTTP originFs 0 (clientGet "/images") =
      .ok (originOneEdge, .redirect "http://localhost:8193/images" 307) := by
  decide

/-- C4, evaluated where the code departs from it: `.html` is a self-served suffix and the
request path `/etc/passwd/index.html` ends with it, but `os.Stat` fails on that name with
`ENOTDIR`; `serveFileMyself` calls `fileIsDir` before it looks at the suffixes, and the
handler panics: no file is served. -/
theorem C4_suffix_request_panics_when_stat_fails :
    strings.HasSuffix (clientGet "/etc/passwd/index.html").Path ".html" = true ∧
    ".html" ∈ originHtml.SelfServedFileTypes ∧
    osStat originFs (clientGet "/etc/passwd/index.html").Path = .failed ∧
    originHtml.ServeHTTP originFs 0 (clientGet "/etc/passwd/index.html") = .panic := by
  decide

/-- C5, evaluated where the code departs from it: the roster is empty and the request is
`GET /etc/passwd/x`, a name on which `os.Stat` fails with `ENOTDIR`; the handler panics
in `fileIsDir` and the request path is not served. -/
theorem C5_empty_roster_request_panics_when_stat_fails :
    originNoEdge.cdnServers = [] ∧
    osStat originFs (clientGet "/etc/passwd/x").Path = .failed ∧
    originNoEdge.ServeHTTP originFs 0 (clientGet "/etc/passwd/x") = .panic := by
  decide

/-- C6: a non-registration request without `X-Cdn-Request`, with a non-empty roster and for
which `serveFileMyself` returns false, is answered by a redirect with status 307 to
`roster[i] + path`, where `i` is the index drawn by `randomCdnServer` and lies within
the bounds of the roster; the roster is left as it is. -/
theorem C6_redirect_target_from_roster (s : RootServer) (fs : FileSystem) (draw : Nat)
    (r : Request) (hreg : ¬(r.Path = "/cdn_register" ∧ r.Method = http.MethodPost))
    (hmark : r.Header "X-Cdn-Request" = []) (hroster : s.cdnServers ≠ [])
    (hself : s.serveFileMyself fs r.Path = .ok false) :
    ∃ i, ∃ h : i < s.cdnServers.length,
      rand.Intn draw s.cdnServers.length = .ok i ∧
      s.randomCdnServer draw = .ok (s.cdnServers.get ⟨i, h⟩) ∧
      s.ServeHTTP fs draw r =
        .ok (s, .redirect (s.cdnServers.get ⟨i, h⟩ ++ r.Path) 307) := by
  have hpos : 0 < s.cdnServers.length := List.length_pos.mpr hroster
  refine ⟨draw % s.cdnServers.length, Nat.mod_lt _ hpos, ?_, s.randomCdnServer_eq draw hpos, ?_⟩
  · simp [rand.Intn, Nat.pos_iff_ne_zero.mp hpos]
  · unfold RootServer.ServeHTTP
    rw [if_neg hreg]
    simp only [hself, hmark, s.randomCdnServer_eq draw hpos]
    simp [hpos, http.StatusTemporaryRedirect]

/-- The theorem of C6 at a roster of two edges, the draw 5 and `GET /image.png`. -/
theorem C6_redirect_target_from_roster_witness :
    ¬((clientGet "/image.png").Path = "/cdn_register" ∧
        (clientGet "/image.png").Method = http.MethodPost) ∧
    (clientGet "/image.png").Header "X-Cdn-Request" = [] ∧
    originTwoEdges.cdnServers ≠ [] ∧
    originTwoEdges.serveFileMyself originFs (clientGet "/image.png").Path = .ok false ∧
    ∃ i, ∃ h : i < originTwoEdges.cdnServers.length,
      rand.Intn 5 originTwoEdges.cdnServers.length = .ok i ∧
      originTwoEdges.randomCdnServer 5 = .ok (originTwoEdges.cdnServers.get ⟨i, h⟩) ∧
      originTwoEdges.ServeHTTP originFs 5 (clientGet "/image.png") =
        .ok (originTwoEdges,
          .redirect (originTwoEdges.cdnServers.get ⟨i, h⟩ ++ (clientGet "/image.png").Path) 307) :=
  ⟨by decide, by decide, by decide, by decide,
    C6_redirect_target_from_roster originTwoEdges originFs 5 (clientGet "/image.png")
      (by decide) (by decide) (by decide) (by decide)⟩

/-- C7: for every roster and every body, a request `POST /cdn_register` leaves the roster
equal to the old roster followed by the body: the length grows by one, every earlier
entry keeps its position, the new last entry is the body, the rest of the server is
unchanged, and the handler returns without serving a file or redirecting. -/
theorem C7_registration_appends_body (s : RootServer) (fs : FileSystem) (draw : Nat)
    (r : Request) (hpath : r.Path = "/cdn_register") (hmethod : r.Method = http.MethodPost) :
    ∃ s', s.ServeHTTP fs draw r = .ok (s', .empty) ∧
      s'.cdnServers = s.cdnServers ++ [r.Body] ∧
      s'.cdnServers.length = s.cdnServers.length + 1 ∧
      (∀ i, ∀ h : i < s.cdnServers.length, s'.cdnServers[i]? = some (s.cdnServers.get ⟨i, h⟩)) ∧
      s'.cdnServers[s.cdnServers.length]? = some r.Body ∧
      s'.ServeDir = s.ServeDir ∧ s'.SelfServedFileTypes = s.SelfServedFileTypes := by
  refine ⟨s.handleCdnConnect r, ?_, rfl, ?_, ?_, ?_, rfl, rfl⟩
  · unfold RootServer.ServeHTTP
    rw [if_pos ⟨hpath, hmethod⟩]
  · simp [RootServer.handleCdnConnect]
  · intro i h
    simp [RootServer.handleCdnConnect, List.getElem?_append_left h, List.getElem?_eq_getElem h]
  · simp [RootServer.handleCdnConnect]

/-- The theorem of C7 at the registration of an address that is already in the roster. -/
theorem C7_registration_appends_body_witness :
    (registerPost "http://localhost:8193").Path = "/cdn_register" ∧
    (registerPost "http://localhost:8193").Method = http.MethodPost ∧
    ∃ s', originOneEdge.ServeHTTP originFs 0 (registerPost "http://localhost:8193") =
        .ok (s', .empty) ∧
      s'.cdnServers = originOneEdge.cdnServers ++ [(registerPost "http://localhost:8193").Body] ∧
      s'.cdnServers.length = originOneEdge.cdnServers.length + 1 ∧
      (∀ i, ∀ h : i < originOneEdge.cdnServers.length,
        s'.cdnServers[i]? = some (originOneEdge.cdnServers.get ⟨i, h⟩)) ∧
      s'.cdnServers[originOneEdge.cdnServers.length]? =
        some (registerPost "http://localhost:8193").Body ∧
      s'.ServeDir = originOneEdge.ServeDir ∧
      s'.SelfServedFileTypes = originOneEdge.SelfServedFileTypes :=
  ⟨rfl, rfl,
    C7_registration_appends_body originOneEdge originFs 0 (registerPost "http://localhost:8193")
      rfl rfl⟩

/-! ## Lemmas on the edge -/

theorem fileExists_eq_false_iff (fs : FileSystem) (filename : String) :
    fileExists fs filename = false ↔ fs filename = .absent := by
  unfold fileExists osStat
  cases h : fs filename <;> simp

/-- A cache hit: the file is served, nothing is fetched, nothing is written. -/
theorem CdnServer.ServeHTTP_hit (c : CdnServer) (env : Env) (fs : FileSystem) (r : Request)
    (hhit : fileExists fs (c.pathToCache r.Path) = true) :
    (c.ServeHTTP env fs r).response = .serveFile (c.pathToCache r.Path) ∧
    (c.ServeHTTP env fs r).fetches = [] ∧
    (c.ServeHTTP env fs r).fs = fs := by
  unfold CdnServer.ServeHTTP
  rw [if_pos hhit]
  exact ⟨rfl, rfl, rfl⟩

theorem FileSystem.update_same (fs : FileSystem) (name : String) (n : Node) :
    fs.update name n name = n := by
  simp [FileSystem.update]

theorem writeAtStart_empty (bytes : String) : writeAtStart "" bytes = bytes := by
  simp [writeAtStart]

/-- A fill on a miss whose fetch, open and copy all succeed: the cache file holds the body
of the origin's response, whatever its status code, and is then served. -/
theorem CdnServer.ServeHTTP_fill (c : CdnServer) (env : Env) (fs : FileSystem) (r : Request)
    (status : Nat) (body : String)
    (hmiss : fileExists fs (c.pathToCache r.Path) = false)
    (hreq : env.newRequestErr (c.RootServer ++ r.Path) = none)
    (hdo : env.Do ⟨http.MethodGet, c.RootServer ++ r.Path, [("X-Cdn-Request", "true")]⟩ =
      .response status body)
    (hopen : env.openErr (c.pathToCache r.Path) = none)
    (hcopy : env.copyErr (c.pathToCache r.Path) = none) :
    (c.ServeHTTP env fs r).response = .serveFile (c.pathToCache r.Path) ∧
    (c.ServeHTTP env fs r).fetches =
      [⟨http.MethodGet, c.RootServer ++ r.Path, [("X-Cdn-Request", "true")]⟩] ∧
    (c.ServeHTTP env fs r).fs = fs.update (c.pathToCache r.Path) (.file body) := by
  have habs : fs (c.pathToCache r.Path) = .absent := (fileExists_eq_false_iff _ _).mp hmiss
  unfold CdnServer.ServeHTTP
  simp only [hmiss, Bool.false_eq_true, if_false]
  unfold CdnServer.loadFromRootServer
  simp only [hreq, hdo, osOpenFile, hopen, habs, copyBodyToFile, hcopy, fileContent,
    FileSystem.update_same, writeAtStart_empty]
  refine ⟨trivial, trivial, ?_⟩
  funext p
  simp only [FileSystem.update]
  split <;> rfl

/-- A fill on a miss whose copy into the cache file stops early: the client is answered
with status 500, the bytes copied so far stay in the cache file, and the next request
for the path, in any environment, is a hit on that file and fetches nothing. -/
theorem CdnServer.ServeHTTP_failed_copy (c : CdnServer) (env env2 : Env) (fs : FileSystem)
    (r r2 : Request) (status : Nat) (body : String) (n : Nat) (err : String)
    (hmiss : fileExists fs (c.pathToCache r.Path) = false)
    (hreq : env.newRequestErr (c.RootServer ++ r.Path) = none)
    (hdo : env.Do ⟨http.MethodGet, c.RootServer ++ r.Path, [("X-Cdn-Request", "true")]⟩ =
      .response status body)
    (hopen : env.openErr (c.pathToCache r.Path) = none)
    (hcopy : env.copyErr (c.pathToCache r.Path) = some (n, err))
    (hsame : r2.Path = r.Path) :
    (c.ServeHTTP env fs r).response =
      .status 500 ("Could not write cache file " ++ r.Path ++ " : " ++ err ++ "\n") ∧
    (c.ServeHTTP env fs r).fs (c.pathToCache r.Path) = .file (String.mk (body.data.take n)) ∧
    (c.ServeHTTP env2 (c.ServeHTTP env fs r).fs r2).response =
      .serveFile (c.pathToCache r.Path) ∧
    (c.ServeHTTP env2 (c.ServeHTTP env fs r).fs r2).fetches = [] := by
  have habs : fs (c.pathToCache r.Path) = .absent := (fileExists_eq_false_iff _ _).mp hmiss
  have hfirst : c.ServeHTTP env fs r =
      ⟨(fs.update (c.pathToCache r.Path) (.file "")).update (c.pathToCache r.Path)
          (.file (String.mk (body.data.take n))),
        .status 500 ("Could not write cache file " ++ r.Path ++ " : " ++ err ++ "\n"),
        [⟨http.MethodGet, c.RootServer ++ r.Path, [("X-Cdn-Request", "true")]⟩]⟩ := by
    unfold CdnServer.ServeHTTP
    simp only [hmiss, Bool.false_eq_true, if_false]
    unfold CdnServer.loadFromRootServer
    simp only [hreq, hdo, osOpenFile, hopen, habs, copyBodyToFile, hcopy, fileContent,
      FileSystem.update_same, writeAtStart_empty]
    rfl
  have hfile : (c.ServeHTTP env fs r).fs (c.pathToCache r.Path) =
      .file (String.mk (body.data.take n)) := by
    rw [hfirst]
    exact FileSystem.update_same _ _ _
  have hhit : fileExists (c.ServeHTTP env fs r).fs (c.pathToCache r2.Path) = true := by
    rw [hsame]
    simp [fileExists, osStat, hfile]
  obtain ⟨g1, g2, _⟩ := c.ServeHTTP_hit env2 (c.ServeHTTP env fs r).fs r2 hhit
  refine ⟨?_, hfile, ?_, g2⟩
  · rw [hfirst]
  · rw [g1, hsame]

/-! ## Claims on the edge -/

/-- C2, evaluated where the code departs from it: the cache is empty and the origin
answers the fetch for `/missing.png` with `404 page not found`. `httpClient.Do` returns
no error for a 404 response and the status code is never read, so the body of the 404
response is written into a new cache file, that file is served instead of a 404
status, and the cache now has an entry for the path. -/
theorem C2_origin_not_found_is_cached :
    edgeFs (edge.pathToCache "/missing.png") = .absent ∧
    (originAnswers 404 "404 page not found\n").Do
        ⟨http.MethodGet, "http://localhost:8192/missing.png", [("X-Cdn-Request", "true")]⟩ =
      .response 404 "404 page not found\n" ∧
    (edge.ServeHTTP (originAnswers 404 "404 page not found\n") edgeFs
        (clientGet "/missing.png")).response = .serveFile "/tmp/distrihttp_data1/missing.png" ∧
    (edge.ServeHTTP (originAnswers 404 "404 page not found\n") edgeFs
        (clientGet "/missing.png")).fs "/tmp/distrihttp_data1/missing.png" =
      .file "404 page not found\n" ∧
    fileExists (edge.ServeHTTP (originAnswers 404 "404 page not found\n") edgeFs
        (clientGet "/missing.png")).fs (edge.pathToCache "/missing.png") = true := by
  decide

/-- C8: if a first request for a path misses the cache and the fetch, the opening of the
cache file and the copy all succeed, then the cache file at `pathToCache` of the path
holds exactly the body of the origin's response; a second request for the same path,
in any environment, is served from that file, sends no request to the origin and
leaves the filesystem as it is, so the file still holds exactly that body. -/
theorem C8_cache_fill_idempotent (c : CdnServer) (env env2 : Env) (fs : FileSystem)
    (r r2 : Request) (status : Nat) (body : String)
    (hmiss : fileExists fs (c.pathToCache r.Path) = false)
    (hreq : env.newRequestErr (c.RootServer ++ r.Path) = none)
    (hdo : env.Do ⟨http.MethodGet, c.RootServer ++ r.Path, [("X-Cdn-Request", "true")]⟩ =
      .response status body)
    (hopen : env.openErr (c.pathToCache r.Path) = none)
    (hcopy : env.copyErr (c.pathToCache r.Path) = none)
    (hsame : r2.Path = r.Path) :
    (c.ServeHTTP env fs r).response = .serveFile (c.pathToCache r.Path) ∧
    (c.ServeHTTP env fs r).fetches =
      [⟨http.MethodGet, c.RootServer ++ r.Path, [("X-Cdn-Request", "true")]⟩] ∧
    (c.ServeHTTP env fs r).fs (c.pathToCache r.Path) = .file body ∧
    (c.ServeHTTP env2 (c.ServeHTTP env fs r).fs r2).response =
      .serveFile (c.pathToCache r.Path) ∧
    (c.ServeHTTP env2 (c.ServeHTTP env fs r).fs r2).fetches = [] ∧
    (c.ServeHTTP env2 (c.ServeHTTP env fs r).fs r2).fs = (c.ServeHTTP env fs r).fs ∧
    (c.ServeHTTP env2 (c.ServeHTTP env fs r).fs r2).fs (c.pathToCache r.Path) = .file body := by
  obtain ⟨h1, h2, h3⟩ := c.ServeHTTP_fill env fs r status body hmiss hreq hdo hopen hcopy
  have hfile : (c.ServeHTTP env fs r).fs (c.pathToCache r.Path) = .file body := by
    rw [h3, FileSystem.update_same]
  have hhit : fileExists (c.ServeHTTP env fs r).fs (c.pathToCache r2.Path) = true := by
    rw [hsame]
    simp [fileExists, osStat, hfile]
  obtain ⟨g1, g2, g3⟩ := c.ServeHTTP_hit env2 (c.ServeHTTP env fs r).fs r2 hhit
  refine ⟨h1, h2, hfile, ?_, g2, g3, ?_⟩
  · rw [g1, hsame]
  · rw [g3, hfile]

/-- The theorem of C8 at an empty cache, `GET /image.png` filled from a healthy origin, and
a second request made while the origin is unreachable. -/
theorem C8_cache_fill_idempotent_witness :
    fileExists edgeFs (edge.pathToCache (clientGet "/image.png").Path) = false ∧
    (edge.ServeHTTP (originAnswers 200 "PNG-bytes") edgeFs (clientGet "/image.png")).response =
      .serveFile (edge.pathToCache (clientGet "/image.png").Path) ∧
    (edge.ServeHTTP (originAnswers 200 "PNG-bytes") edgeFs (clientGet "/image.png")).fetches =
      [⟨http.MethodGet, edge.RootServer ++ (clientGet "/image.png").Path,
        [("X-Cdn-Request", "true")]⟩] ∧
    (edge.ServeHTTP (originAnswers 200 "PNG-bytes") edgeFs (clientGet "/image.png")).fs
      (edge.pathToCache (clientGet "/image.png").Path) = .file "PNG-bytes" ∧
    (edge.ServeHTTP originUnreachable
      (edge.ServeHTTP (originAnswers 200 "PNG-bytes") edgeFs (clientGet "/image.png")).fs
      (clientGet "/image.png")).response =
      .serveFile (edge.pathToCache (clientGet "/image.png").Path) ∧
    (edge.ServeHTTP originUnreachable
      (edge.ServeHTTP (originAnswers 200 "PNG-bytes") edgeFs (clientGet "/image.png")).fs
      (clientGet "/image.png")).fetches = [] ∧
    (edge.ServeHTTP originUnreachable
      (edge.ServeHTTP (originAnswers 200 "PNG-bytes") edgeFs (clientGet "/image.png")).fs
      (clientGet "/image.png")).fs =
      (edge.ServeHTTP (originAnswers 200 "PNG-bytes") edgeFs (clientGet "/image.png")).fs ∧
    (edge.ServeHTTP originUnreachable
      (edge.ServeHTTP (originAnswers 200 "PNG-bytes") edgeFs (clientGet "/image.png")).fs
      (clientGet "/image.png")).fs (edge.pathToCache (clientGet "/image.png").Path) =
      .file "PNG-bytes" :=
  ⟨by decide,
    C8_cache_fill_idempotent edge (originAnswers 200 "PNG-bytes") originUnreachable edgeFs
      (clientGet "/image.png") (clientGet "/image.png") 200 "PNG-bytes"
      (by decide) rfl rfl rfl rfl rfl⟩

/-- C9, evaluated where the code departs from it: the cache is empty, the origin answers
the fetch for `/image.png` with ten bytes, and the copy into the cache file fails after
four of them. The first request is answered with status 500 and the four bytes stay in
the cache file. A second request, with the origin healthy, finds that file with
`fileExists`, serves it as a hit and sends no request to the origin. -/
theorem C9_partial_file_is_served_as_hit :
    edgeFs (edge.pathToCache "/image.png") = .absent ∧
    (edge.ServeHTTP (copyFailsAfter 4 "0123456789") edgeFs (clientGet "/image.png")).response =
      .status 500 "Could not write cache file /image.png : no space left on device\n" ∧
    (edge.ServeHTTP (copyFailsAfter 4 "0123456789") edgeFs (clientGet "/image.png")).fs
      (edge.pathToCache "/image.png") = .file "0123" ∧
    (edge.ServeHTTP (originAnswers 200 "0123456789")
      (edge.ServeHTTP (copyFailsAfter 4 "0123456789") edgeFs (clientGet "/image.png")).fs
      (clientGet "/image.png")).response = .serveFile (edge.pathToCache "/image.png") ∧
    (edge.ServeHTTP (originAnswers 200 "0123456789")
      (edge.ServeHTTP (copyFailsAfter 4 "0123456789") edgeFs (clientGet "/image.png")).fs
      (clientGet "/image.png")).fetches = [] ∧
    (edge.ServeHTTP (originAnswers 200 "0123456789")
      (edge.ServeHTTP (copyFailsAfter 4 "0123456789") edgeFs (clientGet "/image.png")).fs
      (clientGet "/image.png")).fs (edge.pathToCache "/image.png") = .file "0123" := by
  decide

/-- C10: if the path has no entry in the cache and `httpClient.Do` returns an error for
the request built by `loadFromRootServer`, then the client is answered with status 404,
no file is served, exactly one request was sent to the origin, and the filesystem is
as before, so the path still has no cache entry. -/
theorem C10_unreachable_origin_gives_not_found (c : CdnServer) (env : Env) (fs : FileSystem)
    (r : Request) (err : String)
    (hmiss : fs (c.pathToCache r.Path) = .absent)
    (hreq : env.newRequestErr (c.RootServer ++ r.Path) = none)
    (hdo : env.Do ⟨http.MethodGet, c.RootServer ++ r.Path, [("X-Cdn-Request", "true")]⟩ =
      .error err) :
    (c.ServeHTTP env fs r).response =
      .status 404 ("Could not find " ++ r.Path ++ " on root server: " ++ err ++ "\n") ∧
    (∀ name, (c.ServeHTTP env fs r).response ≠ .serveFile name) ∧
    (c.ServeHTTP env fs r).fetches =
      [⟨http.MethodGet, c.RootServer ++ r.Path, [("X-Cdn-Request", "true")]⟩] ∧
    (c.ServeHTTP env fs r).fs = fs ∧
    (c.ServeHTTP env fs r).fs (c.pathToCache r.Path) = .absent := by
  have hex : fileExists fs (c.pathToCache r.Path) = false := (fileExists_eq_false_iff _ _).mpr hmiss
  have hout : c.ServeHTTP env fs r =
      ⟨fs, .status 404 ("Could not find " ++ r.Path ++ " on root server: " ++ err ++ "\n"),
        [⟨http.MethodGet, c.RootServer ++ r.Path, [("X-Cdn-Request", "true")]⟩]⟩ := by
    unfold CdnServer.ServeHTTP
    simp only [hex, Bool.false_eq_true, if_false]
    unfold CdnServer.loadFromRootServer
    simp only [hreq, hdo]
    rfl
  rw [hout]
  refine ⟨rfl, ?_, rfl, rfl, hmiss⟩
  intro name h
  cases h

/-- The theorem of C10 at an empty cache, `GET /image.png` and a refused connection. -/
theorem C10_unreachable_origin_gives_not_found_witness :
    edgeFs (edge.pathToCache (clientGet "/image.png").Path) = .absent ∧
    (edge.ServeHTTP originUnreachable edgeFs (clientGet "/image.png")).response =
      .status 404 ("Could not find " ++ (clientGet "/image.png").Path ++ " on root server: " ++
        "connection refused" ++ "\n") ∧
    (∀ name, (edge.ServeHTTP originUnreachable edgeFs (clientGet "/image.png")).response ≠
      .serveFile name) ∧
    (edge.ServeHTTP originUnreachable edgeFs (clientGet "/image.png")).fetches =
      [⟨http.MethodGet, edge.RootServer ++ (clientGet "/image.png").Path,
        [("X-Cdn-Request", "true")]⟩] ∧
    (edge.ServeHTTP originUnreachable edgeFs (clientGet "/image.png")).fs = edgeFs ∧
    (edge.ServeHTTP originUnreachable edgeFs (clientGet "/image.png")).fs
      (edge.pathToCache (clientGet "/image.png").Path) = .absent :=
  ⟨by decide,
    C10_unreachable_origin_gives_not_found edge originUnreachable edgeFs (clientGet "/image.png")
      "connection refused" (by decide) rfl rfl⟩
